import Mathlib

/-!
# System-requirements table model (SysReqTableView.cpp)

A shallow embedding of `SysReqTableModel`: its constructor, `updateFreeDiskSpace`,
`rowCount`, `columnCount` and `data`, followed by theorems about the pass/fail and
display queries.

Conventions of the embedding:

* `uint64_t` members are `Nat`, `qint64` and `int` values are `Int`; arithmetic whose
  result could leave the machine range is reduced explicitly (`toUInt64`, `wrapInt64`).
* The conditional-compilation switches are a value of type `Build`, passed to every
  function whose body contains an `#if`.
* Everything the code obtains from the machine (files, sub-processes, the registry,
  `cpuid`, `sysconf`, `QStorageInfo`, the Blender search) and every rendering of a
  floating-point number is a field of `Host`.
* `emit dataChanged(..)` is recorded in a list returned next to the new state.
-/

namespace SysReq

/-! ## Qt values used by the model -/

/-- Value of a `QVariant` as far as this model produces one: `return {}` is `invalid`. -/
inductive QVariant where
  | invalid
  | bool (b : Bool)
  | string (s : String)
  deriving DecidableEq, Repr

/-- Row and column carried by a `QModelIndex`, as read by `index.row()` / `index.column()`. -/
structure QModelIndex where
  row : Int
  column : Int
  deriving DecidableEq, Repr

/-- The default-constructed (invalid) `QModelIndex()`: row and column are both -1. -/
def QModelIndex.invalid : QModelIndex := ⟨-1, -1⟩

/-- `Qt::DisplayRole`. -/
def Qt.DisplayRole : Int := 0

/-- `Qt::UserRole` (0x0100). -/
def Qt.UserRole : Int := 0x0100

/-- `tr(sourceText)` with no translation catalogue installed: the source text itself. -/
def tr (s : String) : String := s

/-! ## Machine integers -/

/-- Conversion of a signed integer to `uint64_t`. -/
def toUInt64 (x : Int) : Nat := (x % 2 ^ 64).toNat

/-- Two's-complement reduction of an integer to the `qint64` range. -/
def wrapInt64 (x : Int) : Int := (x + 2 ^ 63) % 2 ^ 64 - 2 ^ 63

/-- Multiplication of two `qint64` values. -/
def mulInt64 (a b : Int) : Int := wrapInt64 (a * b)

/-- The disk threshold `qint64(5) * 1000 * 1000 * 1000`, evaluated left to right in `qint64`. -/
def diskFloor : Int := mulInt64 (mulInt64 (mulInt64 (wrapInt64 5) 1000) 1000) 1000

/-! ## Build configuration and host facts -/

/-- Which of `__linux__`, `__APPLE__`, `_WIN32` is defined (`other`: none of them). -/
inductive Platform where
  | linux
  | apple
  | windows
  | other
  deriving DecidableEq, Repr

/-- Compile-time configuration of the translation unit. -/
structure Build where
  /-- Platform selected by the preprocessor. -/
  platform : Platform
  /-- Value of `ZEUS_ARCH_X86 || ZEUS_ARCH_X86_64`. -/
  zeusArchX86 : Bool
  /-- The constant `CurArchitectureString`, declared outside this file. -/
  curArchitectureString : String

/-- Results of the `VersionHelpers.h` predicates. -/
structure WindowsVersion where
  isWindows10OrGreater : Bool
  isWindows8Point1OrGreater : Bool
  isWindows8OrGreater : Bool
  isWindows7SP1OrGreater : Bool
  isWindows7OrGreater : Bool
  isWindowsVistaOrGreater : Bool
  isWindowsXPOrGreater : Bool

/-- Everything the model reads from the machine it runs on. -/
structure Host where
  /-- Linux: `str.toInt()` of the content of `cpuinfo_max_freq`, when the file opens. -/
  cpuinfoMaxFreq : Option Int
  /-- macOS: when `current_processor_speed` is found, `uint64_t(speed * 1000.0)` and the
  rendering of `speed` by `arg`. -/
  profilerSpeed : Option (Nat × String)
  /-- Windows: the `~MHz` registry value, when both registry calls succeed. -/
  registryMHz : Option Nat
  /-- Other platforms: `regs[0]` after `getCpuInfo(0, regs)`. -/
  cpuidMaxLeaf : Int
  /-- Other platforms: `regs[0]` after `getCpuInfo(0x16, regs)`. -/
  cpuidBaseMHz : Int
  /-- Windows: kilobytes reported by `GetPhysicallyInstalledSystemMemory`. -/
  installedMemoryKiB : Nat
  /-- POSIX: `sysconf(_SC_PHYS_PAGES)`. -/
  physPages : Int
  /-- POSIX: `sysconf(_SC_PAGESIZE)`. -/
  pageSize : Int
  /-- macOS: the triple written by `GetMacOSSystemVersion`. -/
  macosVersion : Int × Int × Int
  /-- Windows: the version predicates. -/
  windows : WindowsVersion
  /-- The pair written by `hecl::blender::FindBlender`. -/
  findBlender : Int × Int
  /-- `QStorageInfo(path).bytesFree()`. -/
  bytesFree : String → Int
  /-- Rendering by `arg(double)` of `mhz / 1000.0`. -/
  textGHz : Nat → String
  /-- Rendering by `arg(x, 1, 'f', 1)` of `mhz / 1000.f`. -/
  textGHzFixed : Nat → String
  /-- Rendering by `arg(double)` of `bytes / 1024.f / 1024.f / 1024.f`. -/
  textGiB : Nat → String
  /-- Rendering by `arg(x, 1, 'f', 1)` of `bytes / 1000.f / 1000.f / 1000.f`. -/
  textGBFixed : Int → String

/-! ## String construction -/

/-- `tr("%1 GHz").arg(x)`: the place marker is replaced by the rendering `x`. -/
def argGHz (x : String) : String := x ++ tr " GHz"

/-- `tr("%1 GiB").arg(x)`. -/
def argGiB (x : String) : String := x ++ tr " GiB"

/-- `tr("%1 GB").arg(x)`. -/
def argGB (x : String) : String := x ++ tr " GB"

/-- `QString::number(n)` for an `int`. -/
def QString.number (n : Int) : String := toString n

/-- Padding applied by `QString::arg(int a, int fieldWidth)`: the text is padded with
blanks to `|fieldWidth|` characters, right-aligned for a positive width and left-aligned
for a negative one. -/
def padField (s : String) (fieldWidth : Int) : String :=
  let fill := String.mk (List.replicate (fieldWidth.natAbs - s.length) (Char.ofNat 32))
  if 0 < fieldWidth then fill ++ s else s ++ fill

/-- `GetWindowsVersionString()`. -/
def GetWindowsVersionString (w : WindowsVersion) : String :=
  if w.isWindows10OrGreater then tr "Windows 10"
  else if w.isWindows8Point1OrGreater then tr "Windows 8.1"
  else if w.isWindows8OrGreater then tr "Windows 8"
  else if w.isWindows7SP1OrGreater then tr "Windows 7 SP1"
  else if w.isWindows7OrGreater then tr "Windows 7"
  else if w.isWindowsVistaOrGreater then tr "Windows Vista"
  else if w.isWindowsXPOrGreater then tr "Windows XP"
  else tr "Windows Old And Won't Work"

/-! ## The model -/

/-- Data members of `SysReqTableModel`. The platform-specific members are all present;
a build only reads and writes the ones it declares. -/
structure SysReqTableModel where
  m_cpuSpeed : Nat
  m_cpuSpeedStr : String
  m_memorySize : Nat
  m_memorySizeStr : String
  m_freeDiskSpace : Int
  m_freeDiskSpaceStr : String
  m_macosMajor : Int
  m_macosMinor : Int
  m_macosPatch : Int
  m_win7SP1OrGreater : Bool
  m_osVersion : String
  m_blendMajor : Int
  m_blendMinor : Int
  m_blendVersionStr : String
  deriving DecidableEq, Repr

/-- Modelled from the spec: `isBlenderVersionOk()` is defined in the header
SysReqTableView.hpp, which is not among the sources. The spec describes the check as
"external tool version ≥ a fixed major/minor floor"; the floor is the recommended label
"Blender 2.81" of row 5. -/
def SysReqTableModel.isBlenderVersionOk (m : SysReqTableModel) : Bool :=
  decide (m.m_blendMajor > 2 ∨ (m.m_blendMajor = 2 ∧ m.m_blendMinor ≥ 81))

/-- CPU-speed section of the constructor. -/
def ctorCpuSpeed (b : Build) (h : Host) (m : SysReqTableModel) : SysReqTableModel :=
  match b.platform with
  | .linux =>
    match h.cpuinfoMaxFreq with
    | some khz =>
      let speed := toUInt64 (Int.tdiv khz 1000)
      { m with m_cpuSpeed := speed, m_cpuSpeedStr := argGHz (h.textGHz speed) }
    | none => m
  | .apple =>
    match h.profilerSpeed with
    | some (mhz, text) => { m with m_cpuSpeed := mhz, m_cpuSpeedStr := argGHz text }
    | none => m
  | .windows =>
    match h.registryMHz with
    | some mhz => { m with m_cpuSpeed := mhz, m_cpuSpeedStr := argGHz (h.textGHzFixed mhz) }
    | none => m
  | .other =>
    let m1 := if h.cpuidMaxLeaf ≥ 0x16 then { m with m_cpuSpeed := toUInt64 h.cpuidBaseMHz } else m
    { m1 with m_cpuSpeedStr := argGHz (h.textGHz m1.m_cpuSpeed) }

/-- Memory section of the constructor. -/
def ctorMemory (b : Build) (h : Host) (m : SysReqTableModel) : SysReqTableModel :=
  let size :=
    match b.platform with
    | .windows => (h.installedMemoryKiB * 1024) % 2 ^ 64
    | _ => (toUInt64 h.physPages * toUInt64 h.pageSize) % 2 ^ 64
  { m with m_memorySize := size, m_memorySizeStr := argGiB (h.textGiB size) }

/-- Operating-system section of the constructor. On macOS with patch level 0 the call
`arg(m_macosMajor, m_macosMinor)` has two `int` arguments, so the second one is the field
width of the first and the marker `%2` stays in the text. -/
def ctorOsVersion (b : Build) (h : Host) (m : SysReqTableModel) : SysReqTableModel :=
  match b.platform with
  | .apple =>
    let major := h.macosVersion.1
    let minor := h.macosVersion.2.1
    let patch := h.macosVersion.2.2
    let m1 := { m with m_macosMajor := major, m_macosMinor := minor, m_macosPatch := patch }
    if patch = 0 then
      { m1 with m_osVersion := tr "macOS " ++ padField (QString.number major) minor ++ ".%2" }
    else
      let text := tr "macOS " ++ QString.number major ++ "." ++ QString.number minor ++ "." ++
        QString.number patch
      { m1 with m_osVersion := text }
  | .windows =>
    { m with m_win7SP1OrGreater := h.windows.isWindows7SP1OrGreater,
             m_osVersion := GetWindowsVersionString h.windows }
  | .linux => { m with m_osVersion := tr "Linux" }
  | .other => m

/-- Blender section of the constructor. -/
def ctorBlender (h : Host) (m : SysReqTableModel) : SysReqTableModel :=
  let m1 := { m with m_blendMajor := h.findBlender.1, m_blendMinor := h.findBlender.2 }
  if m1.m_blendMajor ≠ 0 then
    let text := tr "Blender " ++ QString.number m1.m_blendMajor ++ "." ++ QString.number m1.m_blendMinor
    { m1 with m_blendVersionStr := text }
  else
    { m1 with m_blendVersionStr := tr "Not Found" }

/-- `SysReqTableModel::SysReqTableModel`. The argument `init` holds the members as their
in-class initialisers (in the header) leave them before the constructor body runs. -/
def SysReqTableModel.ctor (b : Build) (h : Host) (init : SysReqTableModel) : SysReqTableModel :=
  ctorBlender h (ctorOsVersion b h (ctorMemory b h (ctorCpuSpeed b h init)))

/-- `SysReqTableModel::rowCount`. -/
def rowCount : Int := 7

/-- `SysReqTableModel::columnCount`. -/
def columnCount : Int := 2

/-- `QAbstractTableModel::index(row, column)`: a valid index inside the table reported by
`rowCount` and `columnCount`, the invalid index elsewhere. -/
def index (row column : Int) : QModelIndex :=
  if 0 ≤ row ∧ 0 ≤ column ∧ row < rowCount ∧ column < columnCount then ⟨row, column⟩
  else QModelIndex.invalid

/-- One emission of the signal `dataChanged(topLeft, bottomRight)`. -/
structure DataChanged where
  topLeft : QModelIndex
  bottomRight : QModelIndex
  deriving DecidableEq, Repr

/-- Whether the cell `(row, column)` lies in the rectangle of a `dataChanged` emission. -/
def DataChanged.covers (s : DataChanged) (row column : Int) : Bool :=
  decide (s.topLeft.row ≤ row ∧ row ≤ s.bottomRight.row ∧
    s.topLeft.column ≤ column ∧ column ≤ s.bottomRight.column)

/-- `SysReqTableModel::updateFreeDiskSpace`: the new state and the signals emitted. -/
def updateFreeDiskSpace (h : Host) (m : SysReqTableModel) (path : String) :
    SysReqTableModel × List DataChanged :=
  let m1 :=
    if path.isEmpty then
      { m with m_freeDiskSpace := 0, m_freeDiskSpaceStr := tr "<Set Working Directory>" }
    else
      let free := h.bytesFree path
      { m with m_freeDiskSpace := free, m_freeDiskSpaceStr := argGB (h.textGBFixed free) }
  (m1, [⟨index 3 0, index 3 0⟩])

/-- `SysReqTableModel::data`. -/
def data (b : Build) (m : SysReqTableModel) (idx : QModelIndex) (role : Int) : QVariant :=
  if role ≠ Qt.DisplayRole ∧ role ≠ Qt.UserRole then .invalid
  else if role = Qt.UserRole then
    if idx.row = 0 then .bool true
    else if idx.row = 1 then .bool (decide (m.m_cpuSpeed ≥ 1500))
    else if idx.row = 2 then .bool (decide (m.m_memorySize ≥ 0xC0000000))
    else if idx.row = 3 then .bool (decide (m.m_freeDiskSpace ≥ diskFloor))
    else if idx.row = 4 then
      match b.platform with
      | .apple => .bool (decide (m.m_macosMajor > 10) || decide (m.m_macosMinor ≥ 9))
      | .windows => .bool m.m_win7SP1OrGreater
      | _ => .bool true
    else if idx.row = 5 then .bool m.isBlenderVersionOk
    else .invalid
  else if idx.column = 0 then
    if idx.row = 0 then (if b.zeusArchX86 then .string (tr "x86_64") else .invalid)
    else if idx.row = 1 then .string (tr "1.5 GHz")
    else if idx.row = 2 then .string (tr "3 GiB")
    else if idx.row = 3 then .string (tr "5 GB (MP1)")
    else if idx.row = 4 then
      match b.platform with
      | .apple => .string (tr "macOS 10.9")
      | .windows => .string (tr "Windows 7 SP1")
      | .linux => .string (tr "Linux")
      | .other => .invalid
    else if idx.row = 5 then .string (tr "Blender 2.81")
    else .invalid
  else if idx.column = 1 then
    if idx.row = 0 then (if b.zeusArchX86 then .string b.curArchitectureString else .invalid)
    else if idx.row = 1 then .string m.m_cpuSpeedStr
    else if idx.row = 2 then .string m.m_memorySizeStr
    else if idx.row = 3 then .string m.m_freeDiskSpaceStr
    else if idx.row = 4 then .string m.m_osVersion
    else if idx.row = 5 then .string m.m_blendVersionStr
    else .invalid
  else .invalid

/-! ## Sample values -/

/-- A Linux x86-64 build. -/
def linuxBuild : Build := ⟨.linux, true, "x86_64"⟩

/-- The members before the constructor body runs, with every number zero and the disk
text unset. -/
def blankModel : SysReqTableModel :=
  { m_cpuSpeed := 0, m_cpuSpeedStr := "", m_memorySize := 0, m_memorySizeStr := "",
    m_freeDiskSpace := 0, m_freeDiskSpaceStr := "", m_macosMajor := 0, m_macosMinor := 0,
    m_macosPatch := 0, m_win7SP1OrGreater := false, m_osVersion := "", m_blendMajor := 0,
    m_blendMinor := 0, m_blendVersionStr := "" }

/-- A host on which every query fails or reports zero and `free` bytes are free everywhere. -/
def sampleHost (free : Int) : Host :=
  { cpuinfoMaxFreq := none, profilerSpeed := none, registryMHz := none, cpuidMaxLeaf := 0,
    cpuidBaseMHz := 0, installedMemoryKiB := 0, physPages := 0, pageSize := 0,
    macosVersion := (0, 0, 0),
    windows := ⟨false, false, false, false, false, false, false⟩,
    findBlender := (0, 0), bytesFree := fun _ => free,
    textGHz := fun _ => "0", textGHzFixed := fun _ => "0.0", textGiB := fun _ => "0",
    textGBFixed := fun _ => "0.0" }

/-! ## Auxiliary facts -/

/-- The threshold product does not wrap: every intermediate product is its mathematical
value. -/
theorem diskFloor_eq : diskFloor = 5000000000 := by
  decide

/-- Emptiness of a path, as tested by `isEmpty`, is equality with the empty string. -/
theorem isEmpty_eq_false_of_ne (path : String) (hp : path ≠ "") : path.isEmpty = false := by
  cases hq : path.isEmpty with
  | false => rfl
  | true => exact absurd ((String.isEmpty_iff path).mp hq) hp

/-! ## Pass/fail thresholds -/

/-- C3: the pass/fail query of the CPU-speed row (row 1, `Qt::UserRole`, any column) is the
boolean `m_cpuSpeed >= 1500`; it is `true` exactly when the stored speed is at least 1500,
so a snapshot with speed 1500 passes and one with speed 1499 fails. -/
theorem data_cpuSpeed_passes_iff (b : Build) (m : SysReqTableModel) (col : Int) :
    data b m ⟨1, col⟩ Qt.UserRole = .bool (decide (1500 ≤ m.m_cpuSpeed)) ∧
    (data b m ⟨1, col⟩ Qt.UserRole = .bool true ↔ 1500 ≤ m.m_cpuSpeed) ∧
    data b { m with m_cpuSpeed := 1500 } ⟨1, col⟩ Qt.UserRole = .bool true ∧
    data b { m with m_cpuSpeed := 1499 } ⟨1, col⟩ Qt.UserRole = .bool false := by
  simp [data, Qt.UserRole, Qt.DisplayRole]

/-- C4: the pass/fail query of the memory row (row 2, `Qt::UserRole`, any column) is `true`
exactly when the stored memory size is at least 3 GiB; the literal `0xC0000000` is
3 * 2^30 = 3221225472, a snapshot with exactly that many bytes passes and one with
3221225471 bytes fails. -/
theorem data_memory_passes_iff (b : Build) (m : SysReqTableModel) (col : Int) :
    (data b m ⟨2, col⟩ Qt.UserRole = .bool true ↔ 3 * 2 ^ 30 ≤ m.m_memorySize) ∧
    data b m ⟨2, col⟩ Qt.UserRole = .bool (decide (3221225472 ≤ m.m_memorySize)) ∧
    (0xC0000000 : Nat) = 3 * 2 ^ 30 ∧ (3 * 2 ^ 30 : Nat) = 3221225472 ∧
    data b { m with m_memorySize := 3221225472 } ⟨2, col⟩ Qt.UserRole = .bool true ∧
    data b { m with m_memorySize := 3221225471 } ⟨2, col⟩ Qt.UserRole = .bool false := by
  simp [data, Qt.UserRole, Qt.DisplayRole]

/-! ## Refreshing the free disk space -/

/-- C1: when the path is not empty and the storage query reports `n` free bytes for it
(`n` a `qint64`), then after `updateFreeDiskSpace` the pass/fail query of the disk row
(row 3, `Qt::UserRole`, any column) is `true` exactly when `n >= 5000000000`; the threshold
`qint64(5) * 1000 * 1000 * 1000` equals the mathematical product, so nothing wraps. -/
theorem updateFreeDiskSpace_disk_passes_iff (b : Build) (h : Host) (m : SysReqTableModel)
    (path : String) (col : Int) (n : Int) (hpath : path ≠ "") (hfree : h.bytesFree path = n)
    (_hlo : -2 ^ 63 ≤ n) (_hhi : n < 2 ^ 63) :
    (data b (updateFreeDiskSpace h m path).1 ⟨3, col⟩ Qt.UserRole = .bool true ↔
      5000000000 ≤ n) ∧
    data b (updateFreeDiskSpace h m path).1 ⟨3, col⟩ Qt.UserRole =
      .bool (decide (5000000000 ≤ n)) ∧
    (updateFreeDiskSpace h m path).1.m_freeDiskSpace = n ∧
    diskFloor = 5 * 1000 * 1000 * 1000 := by
  have hp := isEmpty_eq_false_of_ne path hpath
  simp [data, updateFreeDiskSpace, Qt.UserRole, Qt.DisplayRole, hp, hfree, diskFloor_eq]

/-- C1 at the boundary: 5,000,000,000 free bytes pass. -/
theorem updateFreeDiskSpace_disk_passes_iff_witness :
    (data linuxBuild (updateFreeDiskSpace (sampleHost 5000000000) blankModel "/").1 ⟨3, 0⟩
        Qt.UserRole = .bool true ↔ (5000000000 : Int) ≤ 5000000000) ∧
    data linuxBuild (updateFreeDiskSpace (sampleHost 5000000000) blankModel "/").1 ⟨3, 0⟩
        Qt.UserRole = .bool (decide ((5000000000 : Int) ≤ 5000000000)) ∧
    (updateFreeDiskSpace (sampleHost 5000000000) blankModel "/").1.m_freeDiskSpace
        = 5000000000 ∧
    diskFloor = 5 * 1000 * 1000 * 1000 :=
  updateFreeDiskSpace_disk_passes_iff linuxBuild (sampleHost 5000000000) blankModel "/" 0
    5000000000 (by decide) rfl (by decide) (by decide)

/-- The two sides of the disk threshold on a concrete refresh: 5,000,000,000 free bytes
pass and 4,999,999,999 fail. -/
theorem updateFreeDiskSpace_disk_boundary :
    data linuxBuild (updateFreeDiskSpace (sampleHost 5000000000) blankModel "/").1 ⟨3, 0⟩
      Qt.UserRole = .bool true ∧
    data linuxBuild (updateFreeDiskSpace (sampleHost 4999999999) blankModel "/").1 ⟨3, 0⟩
      Qt.UserRole = .bool false := by
  have hp : ("/" : String).isEmpty = false := isEmpty_eq_false_of_ne "/" (by decide)
  simp [data, updateFreeDiskSpace, sampleHost, Qt.UserRole, Qt.DisplayRole, diskFloor_eq, hp]

/-- The unset-path text does not end in the unit suffix, so it is no `"%1 GB"` text. -/
theorem unset_text_ne_argGB (x : String) : "<Set Working Directory>" ≠ argGB x := by
  intro hEq
  have hLast := congrArg (fun t : String => t.data.reverse.head?) hEq
  simp [argGB, tr] at hLast

/-- C2: whatever the state was, after `updateFreeDiskSpace` with the empty path the stored
free-byte count is 0, the pass/fail query of the disk row (row 3, `Qt::UserRole`) is `false`,
and the display text of row 3, column 1 is "<Set Working Directory>", which is not of the
form "x GB" for any rendering x. -/
theorem updateFreeDiskSpace_empty_path (b : Build) (h : Host) (m : SysReqTableModel)
    (col : Int) :
    (updateFreeDiskSpace h m "").1.m_freeDiskSpace = 0 ∧
    data b (updateFreeDiskSpace h m "").1 ⟨3, col⟩ Qt.UserRole = .bool false ∧
    data b (updateFreeDiskSpace h m "").1 ⟨3, 1⟩ Qt.DisplayRole =
      .string "<Set Working Directory>" ∧
    ∀ x : String,
      data b (updateFreeDiskSpace h m "").1 ⟨3, 1⟩ Qt.DisplayRole ≠ .string (argGB x) := by
  have hval : data b (updateFreeDiskSpace h m "").1 ⟨3, 1⟩ Qt.DisplayRole =
      .string "<Set Working Directory>" := by
    simp [data, updateFreeDiskSpace, Qt.UserRole, Qt.DisplayRole, tr, String.isEmpty]
  refine ⟨?_, ?_, hval, ?_⟩
  · simp [updateFreeDiskSpace, String.isEmpty]
  · simp [data, updateFreeDiskSpace, Qt.UserRole, Qt.DisplayRole, String.isEmpty, diskFloor_eq]
  · intro x hx
    rw [hval] at hx
    exact unset_text_ne_argGB x (QVariant.string.inj hx)

/-! ## The constructor -/

/-- C5: when the Blender search reports (0, 0), the constructed model shows "Not Found" in
row 5, column 1 (`Qt::DisplayRole`) and the pass/fail query of row 5 (`Qt::UserRole`) is
`false`. -/
theorem ctor_blender_not_found (b : Build) (h : Host) (init : SysReqTableModel) (col : Int)
    (hfind : h.findBlender = (0, 0)) :
    data b (SysReqTableModel.ctor b h init) ⟨5, 1⟩ Qt.DisplayRole = .string "Not Found" ∧
    data b (SysReqTableModel.ctor b h init) ⟨5, col⟩ Qt.UserRole = .bool false := by
  simp [data, SysReqTableModel.ctor, ctorBlender, SysReqTableModel.isBlenderVersionOk,
    Qt.UserRole, Qt.DisplayRole, tr, hfind]

/-- C5 on a Linux build whose host finds no Blender. -/
theorem ctor_blender_not_found_witness :
    data linuxBuild (SysReqTableModel.ctor linuxBuild (sampleHost 0) blankModel) ⟨5, 1⟩
      Qt.DisplayRole = .string "Not Found" ∧
    data linuxBuild (SysReqTableModel.ctor linuxBuild (sampleHost 0) blankModel) ⟨5, 0⟩
      Qt.UserRole = .bool false :=
  ctor_blender_not_found linuxBuild (sampleHost 0) blankModel 0 rfl

/-! ## Requests outside the table -/

/-- No arm of any `switch` in `data` matches a row outside 0..5. -/
theorem data_eq_invalid_of_row (b : Build) (m : SysReqTableModel) (row col role : Int)
    (hrow : row < 0 ∨ 5 < row) : data b m ⟨row, col⟩ role = .invalid := by
  have h0 : row ≠ 0 := by omega
  have h1 : row ≠ 1 := by omega
  have h2 : row ≠ 2 := by omega
  have h3 : row ≠ 3 := by omega
  have h4 : row ≠ 4 := by omega
  have h5 : row ≠ 5 := by omega
  simp [data, h0, h1, h2, h3, h4, h5]

/-- C6: for every snapshot, role and column, a row outside 0..5 (row 6 that `rowCount`
reports, any larger row, any negative row) makes `data` return the invalid `QVariant`:
the result is the same for every snapshot, so no member takes part in it. -/
theorem data_row_out_of_range (b : Build) (m : SysReqTableModel) (row col role : Int)
    (hrow : row < 0 ∨ 5 < row) :
    data b m ⟨row, col⟩ role = .invalid ∧
    (∀ m2 : SysReqTableModel, data b m2 ⟨row, col⟩ role = data b m ⟨row, col⟩ role) ∧
    rowCount = 7 ∧ data b m ⟨6, col⟩ role = .invalid := by
  refine ⟨data_eq_invalid_of_row b m row col role hrow, ?_, rfl,
    data_eq_invalid_of_row b m 6 col role (by omega)⟩
  intro m2
  rw [data_eq_invalid_of_row b m2 row col role hrow,
    data_eq_invalid_of_row b m row col role hrow]

/-- C6 at row 6, the seventh row of the view. -/
theorem data_row_out_of_range_witness :
    data linuxBuild blankModel ⟨6, 0⟩ Qt.UserRole = .invalid ∧
    (∀ m2 : SysReqTableModel,
      data linuxBuild m2 ⟨6, 0⟩ Qt.UserRole = data linuxBuild blankModel ⟨6, 0⟩ Qt.UserRole) ∧
    rowCount = 7 ∧ data linuxBuild blankModel ⟨6, 0⟩ Qt.UserRole = .invalid :=
  data_row_out_of_range linuxBuild blankModel 6 0 Qt.UserRole (by decide)

/-- C7 as stated fails: at row 0, column 2 the pass/fail query answers `true`, not the
invalid `QVariant`. -/
theorem data_column_two_userRole_not_invalid :
    data linuxBuild blankModel ⟨0, 2⟩ Qt.UserRole = .bool true ∧
    ¬ (data linuxBuild blankModel ⟨0, 2⟩ Qt.UserRole = .invalid) := by
  decide

/-- C7, amended: for every snapshot, every row and every column outside 0..1 the display
query (`Qt::DisplayRole`) returns the invalid `QVariant`; the pass/fail query
(`Qt::UserRole`) does not look at the column, it answers as it does at column 0, and is
invalid exactly when the row is outside 0..5. -/
theorem data_column_out_of_range (b : Build) (m : SysReqTableModel) (row col : Int)
    (hcol : col < 0 ∨ 1 < col) :
    data b m ⟨row, col⟩ Qt.DisplayRole = .invalid ∧
    data b m ⟨row, col⟩ Qt.UserRole = data b m ⟨row, 0⟩ Qt.UserRole ∧
    (data b m ⟨row, col⟩ Qt.UserRole = .invalid ↔ (row < 0 ∨ 5 < row)) := by
  have c0 : col ≠ 0 := by omega
  have c1 : col ≠ 1 := by omega
  refine ⟨by simp [data, Qt.DisplayRole, Qt.UserRole, c0, c1],
    by simp [data, Qt.DisplayRole, Qt.UserRole], ?_⟩
  constructor
  · intro hinv
    by_contra hr
    have hcases : row = 0 ∨ row = 1 ∨ row = 2 ∨ row = 3 ∨ row = 4 ∨ row = 5 := by omega
    rcases hcases with h | h | h | h | h | h <;> subst h <;>
      simp [data, Qt.DisplayRole, Qt.UserRole] at hinv
    cases hplat : b.platform <;> simp [hplat] at hinv
  · intro hr
    exact data_eq_invalid_of_row b m row col Qt.UserRole hr

/-- C7, amended, at row 0 and column 2. -/
theorem data_column_out_of_range_witness :
    data linuxBuild blankModel ⟨0, 2⟩ Qt.DisplayRole = .invalid ∧
    data linuxBuild blankModel ⟨0, 2⟩ Qt.UserRole =
      data linuxBuild blankModel ⟨0, 0⟩ Qt.UserRole ∧
    (data linuxBuild blankModel ⟨0, 2⟩ Qt.UserRole = .invalid ↔ ((0 : Int) < 0 ∨ (5 : Int) < 0)) :=
  data_column_out_of_range linuxBuild blankModel 0 2 (by decide)

/-! ## What a refresh leaves alone, and what it announces -/

/-- C8: `updateFreeDiskSpace` writes only `m_freeDiskSpace` and `m_freeDiskSpaceStr`. For
every path, `data` answers the same before and after the call at every cell outside row 3
(every column, every role) and at the recommended label (column 0, `Qt::DisplayRole`) of
every row; the label of the disk row stays "5 GB (MP1)". -/
theorem updateFreeDiskSpace_frame (b : Build) (h : Host) (m : SysReqTableModel)
    (path : String) (row col role : Int)
    (hcell : row ≠ 3 ∨ (col = 0 ∧ role = Qt.DisplayRole)) :
    data b (updateFreeDiskSpace h m path).1 ⟨row, col⟩ role = data b m ⟨row, col⟩ role ∧
    data b (updateFreeDiskSpace h m path).1 ⟨3, 0⟩ Qt.DisplayRole = .string "5 GB (MP1)" ∧
    { (updateFreeDiskSpace h m path).1 with
        m_freeDiskSpace := m.m_freeDiskSpace, m_freeDiskSpaceStr := m.m_freeDiskSpaceStr } = m := by
  refine ⟨?_, by simp [data, Qt.DisplayRole, Qt.UserRole, tr], ?_⟩
  · rcases hcell with hrow | ⟨hc, hr⟩
    · cases hpath : path.isEmpty <;>
        simp [data, updateFreeDiskSpace, SysReqTableModel.isBlenderVersionOk, hpath, hrow]
    · subst hc
      subst hr
      simp [data, Qt.DisplayRole, Qt.UserRole]
  · cases hpath : path.isEmpty <;> simp [updateFreeDiskSpace, hpath]

/-- C8 at the CPU-speed text (row 1, column 1) across a refresh with a non-empty path. -/
theorem updateFreeDiskSpace_frame_witness :
    data linuxBuild (updateFreeDiskSpace (sampleHost 7) blankModel "/").1 ⟨1, 1⟩ Qt.DisplayRole
      = data linuxBuild blankModel ⟨1, 1⟩ Qt.DisplayRole ∧
    data linuxBuild (updateFreeDiskSpace (sampleHost 7) blankModel "/").1 ⟨3, 0⟩ Qt.DisplayRole
      = .string "5 GB (MP1)" ∧
    { (updateFreeDiskSpace (sampleHost 7) blankModel "/").1 with
        m_freeDiskSpace := blankModel.m_freeDiskSpace,
        m_freeDiskSpaceStr := blankModel.m_freeDiskSpaceStr } = blankModel :=
  updateFreeDiskSpace_frame linuxBuild (sampleHost 7) blankModel "/" 1 1 Qt.DisplayRole
    (Or.inl (by decide))

/-- C9, what the code does: `updateFreeDiskSpace` emits one `dataChanged` whose two corners
are both the cell (3, 0). The cell (3, 1), which shows the rewritten `m_freeDiskSpaceStr`,
is not covered by it. -/
theorem updateFreeDiskSpace_dataChanged_single_cell (b : Build) (h : Host)
    (m : SysReqTableModel) (path : String) :
    (updateFreeDiskSpace h m path).2 = [⟨⟨3, 0⟩, ⟨3, 0⟩⟩] ∧
    (∀ s ∈ (updateFreeDiskSpace h m path).2, s.covers 3 0 = true ∧ s.covers 3 1 = false) ∧
    data b (updateFreeDiskSpace h m path).1 ⟨3, 1⟩ Qt.DisplayRole =
      .string (updateFreeDiskSpace h m path).1.m_freeDiskSpaceStr := by
  have hsig : (updateFreeDiskSpace h m path).2 = [⟨⟨3, 0⟩, ⟨3, 0⟩⟩] := by
    simp [updateFreeDiskSpace, index, rowCount, columnCount]
  refine ⟨hsig, ?_, by simp [data, Qt.DisplayRole, Qt.UserRole]⟩
  intro s hs
  rw [hsig] at hs
  simp at hs
  subst hs
  simp [DataChanged.covers]

/-- C9 on a concrete refresh: the text of cell (3, 1) changes from empty to "0.0 GB" while
the only notified cell is (3, 0), whose text is the same before and after. -/
theorem updateFreeDiskSpace_dataChanged_misses_text :
    (updateFreeDiskSpace (sampleHost 7) blankModel "/").2 = [⟨⟨3, 0⟩, ⟨3, 0⟩⟩] ∧
    data linuxBuild blankModel ⟨3, 1⟩ Qt.DisplayRole = .string "" ∧
    data linuxBuild (updateFreeDiskSpace (sampleHost 7) blankModel "/").1 ⟨3, 1⟩ Qt.DisplayRole
      = .string "0.0 GB" ∧
    data linuxBuild (updateFreeDiskSpace (sampleHost 7) blankModel "/").1 ⟨3, 0⟩ Qt.DisplayRole
      = data linuxBuild blankModel ⟨3, 0⟩ Qt.DisplayRole := by
  decide

/-! ## The macOS version check -/

end SysReq
